import Mathlib

set_option maxHeartbeats 1000000

namespace AntigravityAgent

/-- One backup entry, the `BackupData` interface of the config store
(use-antigravity-process.ts): filename, content, timestamp. The source types
`content` as `any` and never inspects it; it is modelled as an opaque `String`. -/
structure BackupData where
  filename : String
  content : String
  timestamp : Int
deriving DecidableEq, Repr

/-- A decoded JSON field as `importConfig` sees it after `JSON.parse`: possibly
missing, a string, a number, or an array of backup entries — the only shapes the
structural validation ever distinguishes. -/
inductive JsonField where
  | missing
  | str (s : String)
  | num (n : Int)
  | arr (xs : List BackupData)
deriving DecidableEq, Repr

/-- JavaScript truthiness of a decoded field, as tested by the negations in
the validation line of the source. -/
def JsonField.truthy : JsonField → Bool
  | .missing => false
  | .str s => !(s == "")
  | .num n => !(n == 0)
  | .arr _ => true

/-- Result of `Array.isArray` on a decoded field. -/
def JsonField.isArray : JsonField → Bool
  | .arr _ => true
  | _ => false

/-- The array value of a field; `[]` for non-arrays. In every flow below it is
read only after `isArray` has been established, so the default is never reached. -/
def JsonField.asArray : JsonField → List BackupData
  | .arr xs => xs
  | _ => []

/-- The payload handed to the structural validation in `importConfig`
(the `configData` local of the source, typed loosely there): the three fields
the code touches. -/
structure ParsedConfigData where
  version : JsonField
  backupCount : JsonField
  backups : JsonField
deriving DecidableEq, Repr

/-- The structural check performed in the `onSubmit` of `importConfig`:
the source throws `配置文件格式无效` when
`!configData.version || !configData.backups || !Array.isArray(configData.backups)`. -/
def validateConfig (c : ParsedConfigData) : Bool :=
  c.version.truthy && c.backups.truthy && c.backups.isArray

/-- Result shape of the `validatePassword` callback handed to the password dialog. -/
structure PasswordValidation where
  isValid : Bool
  message : Option String
deriving DecidableEq, Repr

/-- The `validatePassword` closure; the identical literal appears in both
`importConfig` and `exportConfig` of the config store. -/
def validatePassword (password : String) : PasswordValidation :=
  if password.length < 4 then ⟨false, some "密码长度至少为4位"⟩
  else if password.length > 50 then ⟨false, some "密码长度不能超过50位"⟩
  else ⟨true, none⟩

/-- One entry of the `failed` list returned by the backend restore command. -/
structure FailedFile where
  filename : String
  error : String
deriving DecidableEq, Repr

/-- The `RestoreResult` interface of the source: counts of restored files and
the per-file failure list. -/
structure RestoreResult where
  restoredCount : Nat
  failed : List FailedFile
deriving DecidableEq, Repr

/-- The bundle `exportConfig` builds inside its `onSubmit`:
version `1.1.0`, `backupCount` set to the length of the collected list, and
the collected backups themselves (the `EncryptedConfigData` interface). -/
structure EncryptedConfigData where
  version : String
  backupCount : Nat
  backups : List BackupData
deriving DecidableEq, Repr

/-- Outcome of an awaited collaborator call: a value, or a thrown error message. -/
inductive JsResult (α : Type) where
  | ok (value : α)
  | err (message : String)
deriving DecidableEq, Repr

/-- The Zustand store state of the config store (`ConfigState` in the source). -/
structure ConfigState where
  isImporting : Bool
  isExporting : Bool
  isCheckingData : Bool
deriving DecidableEq, Repr

/-- Modelled from the spec: the `PasswordDialog` component is not among the
source files here. Per the spec's password-entry collaborator contract the
dialog either reports cancellation (running `handlePasswordDialogCancel` of
App.tsx, which closes the dialog and raises an error toast `操作已取消`) or
supplies a password; a submitted password is accepted — and `onSubmit`
invoked — only after the synchronous `validatePassword` callback approves it. -/
inductive PasswordChoice where
  | cancel
  | submit (pw : String)
deriving DecidableEq, Repr

/-- Observable effects of one import or export run, in program order: dialog
calls, store flag writes, status or toast messages, and every `invoke` into
the backend commands. -/
inductive Event where
  | openDialog
  | readFileEv (path : String)
  | pwDialog (requireConfirmation : Bool)
  | closeDialog
  | cancelToast
  | statusMsg (message : String) (isError : Bool)
  | setImporting (b : Bool)
  | setExporting (b : Bool)
  | invokeDecrypt (encryptedData : String) (password : String)
  | invokeRestore (backups : List BackupData)
  | invokeCollect
  | buildBundle (configData : EncryptedConfigData)
  | invokeEncrypt (password : String)
  | saveDialog
  | writeFile (path : String) (content : String)
deriving DecidableEq, Repr

def Event.isRestore : Event → Bool
  | .invokeRestore _ => true
  | _ => false

def Event.isDecrypt : Event → Bool
  | .invokeDecrypt _ _ => true
  | _ => false

def Event.isEncrypt : Event → Bool
  | .invokeEncrypt _ => true
  | _ => false

def Event.isWrite : Event → Bool
  | .writeFile _ _ => true
  | _ => false

def Event.isCollect : Event → Bool
  | .invokeCollect => true
  | _ => false

def Event.isPwDialog : Event → Bool
  | .pwDialog _ => true
  | _ => false

def Event.isSaveDialog : Event → Bool
  | .saveDialog => true
  | _ => false

def Event.isOpenDialog : Event → Bool
  | .openDialog => true
  | _ => false

def Event.isReadFile : Event → Bool
  | .readFileEv _ => true
  | _ => false

def Event.isBuildBundle : Event → Bool
  | .buildBundle _ => true
  | _ => false

def Event.isErrorStatus : Event → Bool
  | .statusMsg _ e => e
  | _ => false

def Event.isSetImporting : Event → Bool
  | .setImporting _ => true
  | _ => false

def Event.isSetExporting : Event → Bool
  | .setExporting _ => true
  | _ => false

/-- Events that surface a user cancellation: the error toast raised by
`handlePasswordDialogCancel`, and the two status messages shown when a file
dialog returns no selection. -/
def Event.isCancelSignal : Event → Bool
  | .cancelToast => true
  | .statusMsg m _ => m == "未选择文件" || m == "未选择保存位置"
  | _ => false

/-- External inputs consumed by one `importConfig` run: the file-open dialog
result (`none` covers both `null` and a non-string result), the file read,
the user's action at the password dialog, and the outcome of each backend
`invoke` (decrypt, `JSON.parse`, restore). -/
structure ImportEnv where
  selected : Option String
  readResult : JsResult String
  password : PasswordChoice
  decryptResult : JsResult String
  parseResult : JsResult ParsedConfigData
  restoreResult : JsResult RestoreResult
deriving DecidableEq, Repr

/-- External inputs consumed by one `exportConfig` run: the collected backups,
the password dialog action, the encrypt outcome, the save dialog result, and
the file-write outcome. -/
structure ExportEnv where
  collectResult : JsResult (List BackupData)
  password : PasswordChoice
  encryptResult : JsResult String
  savePath : Option String
  writeResult : JsResult Unit
deriving DecidableEq, Repr

/-- The `onSubmit` callback installed by `importConfig` (its try/catch/finally
body): close the dialog, set `isImporting`, decrypt, parse, validate
structurally, restore, and report counts; any thrown error is caught and shown
as `配置文件解密失败: …` with the error flag set; the `finally` clause always
clears `isImporting`. -/
def importOnSubmit (env : ImportEnv) (fileContent pw : String) (s : ConfigState) :
    List Event × ConfigState :=
  let sDone : ConfigState := { s with isImporting := false }
  let pre : List Event :=
    [Event.closeDialog, Event.setImporting true,
     Event.statusMsg "正在解密配置文件..." false,
     Event.invokeDecrypt fileContent pw]
  match env.decryptResult with
  | .err e =>
      (pre ++ [Event.statusMsg ("配置文件解密失败: " ++ e) true, Event.setImporting false], sDone)
  | .ok _ =>
    match env.parseResult with
    | .err e =>
        (pre ++ [Event.statusMsg ("配置文件解密失败: " ++ e) true, Event.setImporting false], sDone)
    | .ok configData =>
      if validateConfig configData then
        let backups := configData.backups.asArray
        let pre2 := pre ++
          [Event.statusMsg "正在恢复账户数据..." false, Event.invokeRestore backups]
        match env.restoreResult with
        | .err e =>
            (pre2 ++ [Event.statusMsg ("配置文件解密失败: " ++ e) true, Event.setImporting false],
             sDone)
        | .ok result =>
          if result.failed.length > 0 then
            (pre2 ++
              [Event.statusMsg ("配置文件导入成功，已恢复 " ++ toString result.restoredCount ++
                 " 个账户，" ++ toString result.failed.length ++ " 个失败") false,
               Event.setImporting false], sDone)
          else
            (pre2 ++
              [Event.statusMsg ("配置文件导入成功，已恢复 " ++ toString result.restoredCount ++
                 " 个账户") false,
               Event.setImporting false], sDone)
      else
        (pre ++ [Event.statusMsg ("配置文件解密失败: " ++ "配置文件格式无效") true,
                 Event.setImporting false], sDone)

/-- The `importConfig` action of the config store: file-open dialog, file read,
empty-content check, then the password dialog, composed with the dialog outcome
(cancellation, or a validated submission running `importOnSubmit`). The outer
catch of the source turns a file-read failure into the `文件操作失败: …` status. -/
def importConfig (s : ConfigState) (env : ImportEnv) : List Event × ConfigState :=
  match env.selected with
  | none => ([Event.openDialog, Event.statusMsg "未选择文件" true], s)
  | some path =>
    match env.readResult with
    | .err e =>
        ([Event.openDialog, Event.readFileEv path,
          Event.statusMsg ("文件操作失败: " ++ e) true], s)
    | .ok fileContent =>
      if fileContent.length = 0 then
        ([Event.openDialog, Event.readFileEv path, Event.statusMsg "文件内容为空" true], s)
      else
        let pre := [Event.openDialog, Event.readFileEv path, Event.pwDialog false]
        match env.password with
        | .cancel => (pre ++ [Event.closeDialog, Event.cancelToast], s)
        | .submit pw =>
          if (validatePassword pw).isValid then
            (pre ++ (importOnSubmit env fileContent pw s).1,
             (importOnSubmit env fileContent pw s).2)
          else (pre, s)

/-- The `onSubmit` callback installed by `exportConfig`: close the dialog, set
`isExporting`, build the bundle (version `1.1.0`, `backupCount` equal to the
collected length), serialize and encrypt it, ask for a save location, and
persist; a missing save location stops with the `未选择保存位置` status; any
thrown error is caught and shown as `导出配置文件失败: …`; the `finally`
clause always clears `isExporting`. -/
def exportOnSubmit (env : ExportEnv) (backupsWithContent : List BackupData) (pw : String)
    (s : ConfigState) : List Event × ConfigState :=
  let sDone : ConfigState := { s with isExporting := false }
  let configData : EncryptedConfigData :=
    { version := "1.1.0", backupCount := backupsWithContent.length,
      backups := backupsWithContent }
  let pre : List Event :=
    [Event.closeDialog, Event.setExporting true,
     Event.statusMsg "正在生成加密配置文件..." false,
     Event.buildBundle configData, Event.invokeEncrypt pw]
  match env.encryptResult with
  | .err e =>
      (pre ++ [Event.statusMsg ("导出配置文件失败: " ++ e) true, Event.setExporting false], sDone)
  | .ok encryptedData =>
    let pre2 := pre ++ [Event.saveDialog]
    match env.savePath with
    | none =>
        (pre2 ++ [Event.statusMsg "未选择保存位置" true, Event.setExporting false], sDone)
    | some savePath =>
      match env.writeResult with
      | .err e =>
          (pre2 ++ [Event.writeFile savePath encryptedData,
            Event.statusMsg ("导出配置文件失败: " ++ e) true, Event.setExporting false], sDone)
      | .ok _ =>
          (pre2 ++ [Event.writeFile savePath encryptedData,
            Event.statusMsg ("配置文件已保存: " ++ savePath) false, Event.setExporting false],
           sDone)

/-- The `exportConfig` action of the config store: collect backup contents,
fail fast when the collected list is empty, then the password dialog
(with confirmation required), composed with the dialog outcome. The outer
catch turns a collection failure into the `检查数据失败: …` status. -/
def exportConfig (s : ConfigState) (env : ExportEnv) : List Event × ConfigState :=
  let pre := [Event.statusMsg "正在收集账户数据..." false, Event.invokeCollect]
  match env.collectResult with
  | .err e => (pre ++ [Event.statusMsg ("检查数据失败: " ++ e) true], s)
  | .ok backupsWithContent =>
    if backupsWithContent.length = 0 then
      (pre ++ [Event.statusMsg "没有找到任何用户信息，无法导出配置文件" true], s)
    else
      let pre2 := pre ++ [Event.pwDialog true]
      match env.password with
      | .cancel => (pre2 ++ [Event.closeDialog, Event.cancelToast], s)
      | .submit pw =>
        if (validatePassword pw).isValid then
          (pre2 ++ (exportOnSubmit env backupsWithContent pw s).1,
           (exportOnSubmit env backupsWithContent pw s).2)
        else (pre2, s)

/-- The sequence of values written to `isImporting` during a trace. -/
def flagWritesImporting (t : List Event) : List Bool :=
  t.filterMap fun e =>
    match e with
    | .setImporting b => some b
    | _ => none

/-- The sequence of values written to `isExporting` during a trace. -/
def flagWritesExporting (t : List Event) : List Bool :=
  t.filterMap fun e =>
    match e with
    | .setExporting b => some b
    | _ => none

/-- A fresh store state: both flags down, as at application start. -/
def s0 : ConfigState := ⟨false, false, false⟩

/-- A sample backup entry used by the concrete runs below. -/
def b0 : BackupData := ⟨"backup_a.json", "content-a", 0⟩

/-- A decoded payload whose `backupCount` (5) disagrees with the length of its
`backups` array (0), while `version` and `backups` are well-formed. -/
def mismatchedPayload : ParsedConfigData := ⟨.str "1.1.0", .num 5, .arr []⟩

/-- An import run that decrypts and parses into `mismatchedPayload` and restores. -/
def envC1 : ImportEnv :=
  ⟨some "cfg.enc", .ok "ZW5j", .submit "abcd", .ok "decrypted", .ok mismatchedPayload,
   .ok ⟨0, []⟩⟩

/-- An import run whose decoded payload has no `version` field. -/
def envC1bad : ImportEnv :=
  ⟨some "cfg.enc", .ok "ZW5j", .submit "abcd", .ok "decrypted",
   .ok ⟨.missing, .num 0, .arr []⟩, .ok ⟨0, []⟩⟩

/-- C1, counterexample: the structural validation of `importConfig` does not
check `backupCount` against the length of `backups`. A payload whose
`backupCount` is 5 while `backups` is empty passes validation and the flow
proceeds all the way to the restore call, so the claimed rejection does not
happen. -/
theorem c1_counterexample :
    validateConfig mismatchedPayload = true ∧
    mismatchedPayload.backupCount = JsonField.num 5 ∧
    mismatchedPayload.backups.asArray.length = 0 ∧
    (importConfig s0 envC1).1.any Event.isRestore = true := by
  decide

/-- C1, amended: the structural validation in `importConfig` rejects a decoded
payload exactly when its `version` field is missing or falsy, or its `backups`
field is missing or not a sequence; `backupCount` is never examined (the check
is invariant under changing it), and on a payload failing the check the flow
aborts with an error status and the restore command is never invoked. -/
theorem c1_validation_no_count_check :
    (∀ c : ParsedConfigData,
      validateConfig c = false ↔ (c.version.truthy = false ∨ c.backups.isArray = false)) ∧
    (∀ (c : ParsedConfigData) (n : JsonField),
      validateConfig { c with backupCount := n } = validateConfig c) ∧
    (∀ (s : ConfigState) (env : ImportEnv) (path fileContent pw d : String)
       (c : ParsedConfigData),
      env.selected = some path → env.readResult = .ok fileContent →
      fileContent.length ≠ 0 → env.password = .submit pw →
      (validatePassword pw).isValid = true →
      env.decryptResult = .ok d → env.parseResult = .ok c →
      validateConfig c = false →
      (importConfig s env).1.any Event.isRestore = false ∧
      (importConfig s env).1.any Event.isErrorStatus = true) := by
  refine ⟨?_, ?_, ?_⟩
  · rintro ⟨v, n, b⟩
    cases v <;> cases b <;> simp [validateConfig, JsonField.truthy, JsonField.isArray]
  · rintro ⟨v, n, b⟩ m
    simp [validateConfig]
  · rintro s ⟨sel, rr, pwc, dr, pr, sr⟩ path fileContent pw d c h1 h2 h3 h4 h5 h6 h7 h8
    simp only at h1 h2 h4 h6 h7
    subst h1 h2 h4 h6 h7
    simp [importConfig, importOnSubmit, h3, h5, h8, Event.isRestore, Event.isErrorStatus]

/-- C1, witness for the amended theorem at a concrete payload with a missing
`version` field. -/
theorem c1_witness :
    (importConfig s0 envC1bad).1.any Event.isRestore = false ∧
    (importConfig s0 envC1bad).1.any Event.isErrorStatus = true :=
  c1_validation_no_count_check.2.2 s0 envC1bad "cfg.enc" "ZW5j" "abcd" "decrypted"
    ⟨.missing, .num 0, .arr []⟩ rfl rfl (by decide) rfl (by decide) rfl rfl (by decide)

/-- A fully-successful export run. -/
def envC2 : ExportEnv :=
  ⟨.ok [b0], .submit "abcd", .ok "RU5D", some "/tmp/out.enc", .ok ()⟩

/-- C2, counterexample: `exportConfig` contains no guard on the `isExporting`
flag. Called while `isExporting` is already true, it still reads the snapshot
store (`collect_backup_contents`), opens the password dialog, and writes a
file — it is neither rejected nor queued. -/
theorem c2_counterexample :
    (exportConfig ⟨false, true, false⟩ envC2).1.any Event.isCollect = true ∧
    (exportConfig ⟨false, true, false⟩ envC2).1.any Event.isPwDialog = true ∧
    (exportConfig ⟨false, true, false⟩ envC2).1.any Event.isWrite = true := by
  decide

/-- C2, amended: neither `exportConfig` nor `importConfig` inspects the
`isImporting`/`isExporting` flags: the sequence of effects of a call is
identical for every initial flag state, so a second concurrent call proceeds
exactly as a first one would; mutual exclusion is left to the UI layer,
which disables the toolbar buttons while any flag is set. -/
theorem c2_no_reentrancy_guard :
    (∀ (s₁ s₂ : ConfigState) (env : ExportEnv),
      (exportConfig s₁ env).1 = (exportConfig s₂ env).1) ∧
    (∀ (s₁ s₂ : ConfigState) (env : ImportEnv),
      (importConfig s₁ env).1 = (importConfig s₂ env).1) := by
  constructor
  · rintro s₁ s₂ ⟨cr, pwc, er, sp, wr⟩
    rcases cr with bs | e <;> rcases pwc with _ | pw <;> rcases er with d | e2 <;>
      rcases sp with _ | p <;> rcases wr with u | e3 <;>
        simp only [exportConfig, exportOnSubmit] <;> split_ifs <;> rfl
  · rintro s₁ s₂ ⟨sel, rr, pwc, dr, pr, sr⟩
    rcases sel with _ | path <;> rcases rr with fc | e <;> rcases pwc with _ | pw <;>
      rcases dr with d | e2 <;> rcases pr with c | e3 <;> rcases sr with r | e4 <;>
        simp only [importConfig, importOnSubmit] <;> split_ifs <;> rfl

/-- C3: whenever decryption fails, or the decrypted text fails to parse, or
the parsed payload fails the structural validation, the import flow aborts
with an error status, the restore command is never invoked, and the
`isImporting` flag is left cleared. -/
theorem c3_decode_failure_aborts_before_restore
    (s : ConfigState) (env : ImportEnv) (path fileContent pw : String)
    (h1 : env.selected = some path) (h2 : env.readResult = .ok fileContent)
    (h3 : fileContent.length ≠ 0) (h4 : env.password = .submit pw)
    (h5 : (validatePassword pw).isValid = true)
    (h6 : (∃ e, env.decryptResult = .err e) ∨ (∃ e, env.parseResult = .err e) ∨
          (∃ c, env.parseResult = .ok c ∧ validateConfig c = false)) :
    (importConfig s env).1.any Event.isRestore = false ∧
    (importConfig s env).1.any Event.isErrorStatus = true ∧
    (importConfig s env).2.isImporting = false := by
  obtain ⟨sel, rr, pwc, dr, pr, sr⟩ := env
  simp only at h1 h2 h4
  subst h1 h2 h4
  rcases h6 with ⟨e, he⟩ | ⟨e, he⟩ | ⟨c, he, hv⟩ <;> simp only at he <;> subst he
  · simp [importConfig, importOnSubmit, h3, h5, Event.isRestore, Event.isErrorStatus]
  · rcases dr with d | e2 <;>
      simp [importConfig, importOnSubmit, h3, h5, Event.isRestore, Event.isErrorStatus]
  · rcases dr with d | e2 <;>
      simp [importConfig, importOnSubmit, h3, h5, hv, Event.isRestore, Event.isErrorStatus]

/-- An import run whose decryption fails (wrong password or corrupt artifact). -/
def envC3 : ImportEnv :=
  ⟨some "cfg.enc", .ok "ZW5j", .submit "abcd", .err "Decryption failed",
   .err "Unexpected token", .err "not reached"⟩

/-- C3, witness: a concrete run with a failing decryption aborts with an error
and never restores. -/
theorem c3_witness :
    (importConfig s0 envC3).1.any Event.isRestore = false ∧
    (importConfig s0 envC3).1.any Event.isErrorStatus = true ∧
    (importConfig s0 envC3).2.isImporting = false :=
  c3_decode_failure_aborts_before_restore s0 envC3 "cfg.enc" "ZW5j" "abcd"
    rfl rfl (by decide) rfl (by decide) (Or.inl ⟨"Decryption failed", rfl⟩)

/-- C4: when the collected backup data is empty, `exportConfig` stops at once
with an error status; the password dialog and the save dialog are never shown,
no encryption and no file write happen, and the store state is unchanged. -/
theorem c4_empty_export_fails_fast (s : ConfigState) (env : ExportEnv)
    (h : env.collectResult = .ok []) :
    (exportConfig s env).1 =
      [Event.statusMsg "正在收集账户数据..." false, Event.invokeCollect,
       Event.statusMsg "没有找到任何用户信息，无法导出配置文件" true] ∧
    (exportConfig s env).1.any Event.isPwDialog = false ∧
    (exportConfig s env).1.any Event.isSaveDialog = false ∧
    (exportConfig s env).1.any Event.isEncrypt = false ∧
    (exportConfig s env).1.any Event.isWrite = false ∧
    (exportConfig s env).1.any Event.isErrorStatus = true ∧
    (exportConfig s env).2 = s := by
  obtain ⟨cr, pwc, er, sp, wr⟩ := env
  simp only at h
  subst h
  simp [exportConfig, Event.isPwDialog, Event.isSaveDialog, Event.isEncrypt,
    Event.isWrite, Event.isErrorStatus]

/-- An export run finding no backup data at all. -/
def envC4 : ExportEnv :=
  ⟨.ok [], .submit "abcd", .ok "RU5D", some "/tmp/out.enc", .ok ()⟩

/-- C4, witness: the concrete empty-repository export stops before any dialog. -/
theorem c4_witness :
    (exportConfig s0 envC4).1 =
      [Event.statusMsg "正在收集账户数据..." false, Event.invokeCollect,
       Event.statusMsg "没有找到任何用户信息，无法导出配置文件" true] ∧
    (exportConfig s0 envC4).1.any Event.isPwDialog = false ∧
    (exportConfig s0 envC4).1.any Event.isSaveDialog = false ∧
    (exportConfig s0 envC4).1.any Event.isEncrypt = false ∧
    (exportConfig s0 envC4).1.any Event.isWrite = false ∧
    (exportConfig s0 envC4).1.any Event.isErrorStatus = true ∧
    (exportConfig s0 envC4).2 = s0 :=
  c4_empty_export_fails_fast s0 envC4 rfl

/-- C5: when the restore command reports a non-empty `failed` list next to a
`restoredCount`, the import run raises no error status at all; it reports a
success message that carries both the restored count and the failed count. -/
theorem c5_partial_failure_reported_as_success
    (s : ConfigState) (env : ImportEnv) (path fileContent pw d : String)
    (c : ParsedConfigData) (r : RestoreResult)
    (h1 : env.selected = some path) (h2 : env.readResult = .ok fileContent)
    (h3 : fileContent.length ≠ 0) (h4 : env.password = .submit pw)
    (h5 : (validatePassword pw).isValid = true)
    (h6 : env.decryptResult = .ok d) (h7 : env.parseResult = .ok c)
    (h8 : validateConfig c = true) (h9 : env.restoreResult = .ok r)
    (h10 : r.failed.length > 0) :
    (importConfig s env).1.any Event.isErrorStatus = false ∧
    Event.statusMsg ("配置文件导入成功，已恢复 " ++ toString r.restoredCount ++
        " 个账户，" ++ toString r.failed.length ++ " 个失败") false ∈
      (importConfig s env).1 := by
  obtain ⟨sel, rr, pwc, dr, pr, sr⟩ := env
  simp only at h1 h2 h4 h6 h7 h9
  subst h1 h2 h4 h6 h7 h9
  simp [importConfig, importOnSubmit, h3, h5, h8, h10, Event.isErrorStatus]

/-- An import run in which one of three files fails to restore. -/
def envC5 : ImportEnv :=
  ⟨some "cfg.enc", .ok "ZW5j", .submit "abcd", .ok "decrypted",
   .ok ⟨.str "1.1.0", .num 3, .arr [b0]⟩,
   .ok ⟨2, [⟨"backup_b.json", "permission denied"⟩]⟩⟩

/-- C5, witness: the concrete partially-failed restore is reported as a
success naming two restored and one failed. -/
theorem c5_witness :
    (importConfig s0 envC5).1.any Event.isErrorStatus = false ∧
    Event.statusMsg ("配置文件导入成功，已恢复 " ++ toString (2 : Nat) ++
        " 个账户，" ++ toString ([⟨"backup_b.json", "permission denied"⟩] :
          List FailedFile).length ++ " 个失败") false ∈
      (importConfig s0 envC5).1 :=
  c5_partial_failure_reported_as_success s0 envC5 "cfg.enc" "ZW5j" "abcd" "decrypted"
    ⟨.str "1.1.0", .num 3, .arr [b0]⟩ ⟨2, [⟨"backup_b.json", "permission denied"⟩]⟩
    rfl rfl (by decide) rfl (by decide) rfl rfl (by decide) rfl (by decide)

/-- C6: the password validation shared by `importConfig` and `exportConfig`
accepts a password exactly when its length lies in [4, 50]; moreover a decrypt
call in an import run, or an encrypt call in an export run, can only happen
after the dialog delivered a password that this validation accepts. -/
theorem c6_password_policy :
    (∀ pw : String,
      (validatePassword pw).isValid = true ↔ 4 ≤ pw.length ∧ pw.length ≤ 50) ∧
    (∀ (s : ConfigState) (env : ImportEnv),
      (importConfig s env).1.any Event.isDecrypt = true →
      ∃ pw, env.password = .submit pw ∧ (validatePassword pw).isValid = true) ∧
    (∀ (s : ConfigState) (env : ExportEnv),
      (exportConfig s env).1.any Event.isEncrypt = true →
      ∃ pw, env.password = .submit pw ∧ (validatePassword pw).isValid = true) := by
  refine ⟨?_, ?_, ?_⟩
  · intro pw
    unfold validatePassword
    split_ifs with h1 h2 <;> simp <;> omega
  · rintro s ⟨sel, rr, pwc, dr, pr, sr⟩ h
    rcases sel with _ | path
    · simp [importConfig, Event.isDecrypt] at h
    rcases rr with fc | e
    · by_cases hl : fc.length = 0
      · simp [importConfig, hl, Event.isDecrypt] at h
      · rcases pwc with _ | pw
        · simp [importConfig, hl, Event.isDecrypt] at h
        · by_cases hv : (validatePassword pw).isValid = true
          · exact ⟨pw, rfl, hv⟩
          · simp [importConfig, hl, hv, Event.isDecrypt] at h
    · simp [importConfig, Event.isDecrypt] at h
  · rintro s ⟨cr, pwc, er, sp, wr⟩ h
    rcases cr with bs | e
    · by_cases hl : bs.length = 0
      · simp [exportConfig, hl, Event.isEncrypt] at h
      · rcases pwc with _ | pw
        · simp [exportConfig, hl, Event.isEncrypt] at h
        · by_cases hv : (validatePassword pw).isValid = true
          · exact ⟨pw, rfl, hv⟩
          · simp [exportConfig, hl, hv, Event.isEncrypt] at h
    · simp [exportConfig, Event.isEncrypt] at h

/-- An import run that reaches decryption with the four-character password. -/
def envC6 : ImportEnv :=
  ⟨some "cfg.enc", .ok "ZW5j", .submit "abcd", .ok "decrypted",
   .ok ⟨.str "1.1.0", .num 1, .arr [b0]⟩, .ok ⟨1, []⟩⟩

/-- C6, witness: length 4 is accepted, and the concrete decrypting run indeed
carries a validated submitted password. -/
theorem c6_witness :
    (validatePassword "abcd").isValid = true ∧
    (∃ pw, envC6.password = .submit pw ∧ (validatePassword pw).isValid = true) :=
  ⟨(c6_password_policy.1 "abcd").mpr (by decide),
   c6_password_policy.2.1 s0 envC6 (by decide)⟩

/-- An import run cancelled at the file-open dialog. -/
def envC7 : ImportEnv :=
  ⟨none, .ok "ZW5j", .cancel, .err "not reached", .err "not reached", .err "not reached"⟩

/-- C7, counterexample: cancelling the file-open dialog of an import run is
surfaced through the status collaborator with the error flag set
(`showStatus('未选择文件', true)`), so the cancellation is reported to the
user as an error, contrary to the claim. -/
theorem c7_counterexample :
    (importConfig s0 envC7).1 = [Event.openDialog, Event.statusMsg "未选择文件" true] ∧
    (importConfig s0 envC7).1.any Event.isErrorStatus = true := by
  decide

/-- C7, amended: cancelling at a file dialog does stop the flow at once — on
an import nothing else happens at all, and on export no file is written and the
flag is cleared — but the outcome is surfaced to the user as an error-styled
status message (`未选择文件` / `未选择保存位置` with the error flag set),
not as a silent recovery. -/
theorem c7_cancel_stops_but_shows_error :
    (∀ (s : ConfigState) (env : ImportEnv), env.selected = none →
      (importConfig s env).1 = [Event.openDialog, Event.statusMsg "未选择文件" true] ∧
      (importConfig s env).1.any Event.isErrorStatus = true ∧
      (importConfig s env).2 = s) ∧
    (∀ (s : ConfigState) (env : ExportEnv) (bs : List BackupData) (pw enc : String),
      env.collectResult = .ok bs → bs.length ≠ 0 →
      env.password = .submit pw → (validatePassword pw).isValid = true →
      env.encryptResult = .ok enc → env.savePath = none →
      (exportConfig s env).1.any Event.isWrite = false ∧
      Event.statusMsg "未选择保存位置" true ∈ (exportConfig s env).1 ∧
      (exportConfig s env).2.isExporting = false) := by
  constructor
  · rintro s ⟨sel, rr, pwc, dr, pr, sr⟩ h
    simp only at h
    subst h
    simp [importConfig, Event.isErrorStatus]
  · rintro s ⟨cr, pwc, er, sp, wr⟩ bs pw enc h1 h2 h3 h4 h5 h6
    simp only at h1 h3 h5 h6
    subst h1 h3 h5 h6
    simp [exportConfig, exportOnSubmit, h2, h4, Event.isWrite]

/-- C7, witness for the amended theorem at the concrete cancelled import. -/
theorem c7_witness :
    (importConfig s0 envC7).1 = [Event.openDialog, Event.statusMsg "未选择文件" true] ∧
    (importConfig s0 envC7).1.any Event.isErrorStatus = true ∧
    (importConfig s0 envC7).2 = s0 :=
  c7_cancel_stops_but_shows_error.1 s0 envC7 rfl

/-- A fully-successful export run used for the ordering facts. -/
def envC8 : ExportEnv :=
  ⟨.ok [b0], .submit "abcd", .ok "RU5D", some "/tmp/out.enc", .ok ()⟩

/-- C8, counterexample: in a fully-successful export run the password dialog
is shown strictly before the bundle is built, contradicting the claim that
the Bundle is built before the password is acquired. -/
theorem c8_counterexample :
    Event.pwDialog true ∈ (exportConfig s0 envC8).1 ∧
    Event.buildBundle ⟨"1.1.0", 1, [b0]⟩ ∈ (exportConfig s0 envC8).1 ∧
    (exportConfig s0 envC8).1.indexOf (Event.pwDialog true) <
      (exportConfig s0 envC8).1.indexOf (Event.buildBundle ⟨"1.1.0", 1, [b0]⟩) := by
  decide

/-- C8, amended: a fully-successful export run executes strictly in the order
collect backup data → acquire the confirmed password → build and serialize the
Bundle (version `1.1.0`, `backupCount` set to the collected length) → encrypt
→ request a save location → persist; in particular the Bundle is built after
the password is acquired, not before. -/
theorem c8_export_order (s : ConfigState) (env : ExportEnv) (bs : List BackupData)
    (pw enc p : String)
    (h1 : env.collectResult = .ok bs) (h2 : bs.length ≠ 0)
    (h3 : env.password = .submit pw) (h4 : (validatePassword pw).isValid = true)
    (h5 : env.encryptResult = .ok enc) (h6 : env.savePath = some p)
    (h7 : env.writeResult = .ok ()) :
    (exportConfig s env).1 =
      [Event.statusMsg "正在收集账户数据..." false, Event.invokeCollect,
       Event.pwDialog true, Event.closeDialog, Event.setExporting true,
       Event.statusMsg "正在生成加密配置文件..." false,
       Event.buildBundle ⟨"1.1.0", bs.length, bs⟩, Event.invokeEncrypt pw,
       Event.saveDialog, Event.writeFile p enc,
       Event.statusMsg ("配置文件已保存: " ++ p) false, Event.setExporting false] := by
  obtain ⟨cr, pwc, er, sp, wr⟩ := env
  simp only at h1 h3 h5 h6 h7
  subst h1 h3 h5 h6
  rcases wr with u | e
  · simp [exportConfig, exportOnSubmit, h2, h4]
  · simp at h7

/-- C8, witness for the amended ordering theorem at the concrete run. -/
theorem c8_witness :
    (exportConfig s0 envC8).1 =
      [Event.statusMsg "正在收集账户数据..." false, Event.invokeCollect,
       Event.pwDialog true, Event.closeDialog, Event.setExporting true,
       Event.statusMsg "正在生成加密配置文件..." false,
       Event.buildBundle ⟨"1.1.0", ([b0] : List BackupData).length, [b0]⟩,
       Event.invokeEncrypt "abcd", Event.saveDialog,
       Event.writeFile "/tmp/out.enc" "RU5D",
       Event.statusMsg ("配置文件已保存: " ++ "/tmp/out.enc") false,
       Event.setExporting false] :=
  c8_export_order s0 envC8 [b0] "abcd" "RU5D" "/tmp/out.enc"
    rfl (by decide) rfl (by decide) rfl rfl rfl

/-- An export run in which the user cancels at the save-location dialog. -/
def envC9 : ExportEnv :=
  ⟨.ok [b0], .submit "abcd", .ok "RU5D", none, .ok ()⟩

/-- C9, counterexample: in an export run cancelled at the save dialog — a
file-selection step — the encrypt call has already been made, contradicting
the claim that cancelling at a file-selection step implies no encrypt call. -/
theorem c9_counterexample :
    envC9.savePath = none ∧
    (exportConfig s0 envC9).1.any Event.isEncrypt = true ∧
    (exportConfig s0 envC9).1.any Event.isCancelSignal = true := by
  decide

/-- C9, amended: cancellation is honored at the import file-open dialog, at
the password dialog, and at the export save dialog. The first two leave all
state untouched with no decrypt, encrypt, restore, or write; cancelling at the
export save dialog happens after the encrypt call but still before any file
write; and once decryption has begun (import) or a file write has begun
(export) no cancellation can have occurred in that run. -/
theorem c9_cancellation_points :
    (∀ (s : ConfigState) (env : ImportEnv), env.selected = none →
      (importConfig s env).1.any Event.isDecrypt = false ∧
      (importConfig s env).1.any Event.isRestore = false ∧
      (importConfig s env).1.any Event.isWrite = false ∧
      (importConfig s env).2 = s) ∧
    (∀ (s : ConfigState) (env : ImportEnv), env.password = .cancel →
      (importConfig s env).1.any Event.isDecrypt = false ∧
      (importConfig s env).1.any Event.isRestore = false ∧
      (importConfig s env).1.any Event.isWrite = false ∧
      (importConfig s env).2 = s) ∧
    (∀ (s : ConfigState) (env : ExportEnv), env.password = .cancel →
      (exportConfig s env).1.any Event.isEncrypt = false ∧
      (exportConfig s env).1.any Event.isWrite = false ∧
      (exportConfig s env).2 = s) ∧
    (∀ (s : ConfigState) (env : ExportEnv) (bs : List BackupData) (pw enc : String),
      env.collectResult = .ok bs → bs.length ≠ 0 →
      env.password = .submit pw → (validatePassword pw).isValid = true →
      env.encryptResult = .ok enc → env.savePath = none →
      (exportConfig s env).1.any Event.isEncrypt = true ∧
      (exportConfig s env).1.any Event.isWrite = false) ∧
    (∀ (s : ConfigState) (env : ImportEnv),
      (importConfig s env).1.any Event.isDecrypt = true →
      env.selected ≠ none ∧ env.password ≠ .cancel ∧
      Event.cancelToast ∉ (importConfig s env).1) ∧
    (∀ (s : ConfigState) (env : ExportEnv),
      (exportConfig s env).1.any Event.isWrite = true →
      env.savePath ≠ none ∧ env.password ≠ .cancel ∧
      Event.cancelToast ∉ (exportConfig s env).1) := by
  refine ⟨?_, ?_, ?_, ?_, ?_, ?_⟩
  · rintro s ⟨sel, rr, pwc, dr, pr, sr⟩ h
    simp only at h
    subst h
    simp [importConfig, Event.isDecrypt, Event.isRestore, Event.isWrite]
  · rintro s ⟨sel, rr, pwc, dr, pr, sr⟩ h
    simp only at h
    subst h
    rcases sel with _ | path <;> rcases rr with fc | e <;>
      simp [importConfig, Event.isDecrypt, Event.isRestore, Event.isWrite] <;>
        split_ifs <;> simp [Event.isDecrypt, Event.isRestore, Event.isWrite]
  · rintro s ⟨cr, pwc, er, sp, wr⟩ h
    simp only at h
    subst h
    rcases cr with bs | e <;>
      simp [exportConfig, Event.isEncrypt, Event.isWrite] <;>
        split_ifs <;> simp [Event.isEncrypt, Event.isWrite]
  · rintro s ⟨cr, pwc, er, sp, wr⟩ bs pw enc h1 h2 h3 h4 h5 h6
    simp only at h1 h3 h5 h6
    subst h1 h3 h5 h6
    simp [exportConfig, exportOnSubmit, h2, h4, Event.isEncrypt, Event.isWrite]
  · rintro s ⟨sel, rr, pwc, dr, pr, sr⟩ h
    rcases sel with _ | path
    · simp [importConfig, Event.isDecrypt] at h
    rcases rr with fc | e
    · by_cases hl : fc.length = 0
      · simp [importConfig, hl, Event.isDecrypt] at h
      · rcases pwc with _ | pw
        · simp [importConfig, hl, Event.isDecrypt] at h
        · by_cases hv : (validatePassword pw).isValid = true
          · refine ⟨by simp, by simp, ?_⟩
            rcases dr with d | e2 <;> rcases pr with c | e3 <;> rcases sr with r | e4 <;>
              simp [importConfig, importOnSubmit, hl, hv] <;> split_ifs <;> simp
          · simp [importConfig, hl, hv, Event.isDecrypt] at h
    · simp [importConfig, Event.isDecrypt] at h
  · rintro s ⟨cr, pwc, er, sp, wr⟩ h
    rcases cr with bs | e
    · by_cases hl : bs.length = 0
      · simp [exportConfig, hl, Event.isWrite] at h
      · rcases pwc with _ | pw
        · simp [exportConfig, hl, Event.isWrite] at h
        · by_cases hv : (validatePassword pw).isValid = true
          · rcases er with d | e2
            · rcases sp with _ | p
              · simp [exportConfig, exportOnSubmit, hl, hv, Event.isWrite] at h
              · refine ⟨by simp, by simp, ?_⟩
                rcases wr with u | e3 <;>
                  simp [exportConfig, exportOnSubmit, hl, hv]
            · simp [exportConfig, exportOnSubmit, hl, hv, Event.isWrite] at h
          · simp [exportConfig, hl, hv, Event.isWrite] at h
    · simp [exportConfig, Event.isWrite] at h

/-- An export run cancelled at the password dialog. -/
def envC9b : ExportEnv :=
  ⟨.ok [b0], .cancel, .err "not reached", none, .err "not reached"⟩

/-- C9, witness for the amended theorem: cancelling the export password dialog
makes no encrypt call and no write and leaves the store state unchanged. -/
theorem c9_witness :
    (exportConfig s0 envC9b).1.any Event.isEncrypt = false ∧
    (exportConfig s0 envC9b).1.any Event.isWrite = false ∧
    (exportConfig s0 envC9b).2 = s0 :=
  c9_cancellation_points.2.2.1 s0 envC9b rfl

/-- C10: the `isImporting`/`isExporting` flags are written only inside the
password dialog's `onSubmit` callback: each run writes either nothing to the
flag or exactly the sequence `true` then `false`; on submit-paths the dialog
call (and the file read for import, the data collection for export) occur
strictly before the first flag write, and the flag ends the run cleared; and
every run either ends with the flag cleared or leaves the whole state
untouched. -/
theorem c10_flag_set_only_in_submit :
    (∀ (s : ConfigState) (env : ImportEnv),
      flagWritesImporting (importConfig s env).1 = [] ∨
      flagWritesImporting (importConfig s env).1 = [true, false]) ∧
    (∀ (s : ConfigState) (env : ImportEnv) (path fileContent pw : String),
      env.selected = some path → env.readResult = .ok fileContent →
      fileContent.length ≠ 0 → env.password = .submit pw →
      (validatePassword pw).isValid = true →
      flagWritesImporting (importConfig s env).1 = [true, false] ∧
      ((importConfig s env).1.takeWhile (fun e => !(e.isSetImporting))).any
        Event.isPwDialog = true ∧
      ((importConfig s env).1.takeWhile (fun e => !(e.isSetImporting))).any
        Event.isReadFile = true ∧
      (importConfig s env).2.isImporting = false) ∧
    (∀ (s : ConfigState) (env : ImportEnv),
      (importConfig s env).2.isImporting = false ∨ (importConfig s env).2 = s) ∧
    (∀ (s : ConfigState) (env : ExportEnv),
      flagWritesExporting (exportConfig s env).1 = [] ∨
      flagWritesExporting (exportConfig s env).1 = [true, false]) ∧
    (∀ (s : ConfigState) (env : ExportEnv) (bs : List BackupData) (pw : String),
      env.collectResult = .ok bs → bs.length ≠ 0 → env.password = .submit pw →
      (validatePassword pw).isValid = true →
      flagWritesExporting (exportConfig s env).1 = [true, false] ∧
      ((exportConfig s env).1.takeWhile (fun e => !(e.isSetExporting))).any
        Event.isPwDialog = true ∧
      ((exportConfig s env).1.takeWhile (fun e => !(e.isSetExporting))).any
        Event.isCollect = true ∧
      (exportConfig s env).2.isExporting = false) ∧
    (∀ (s : ConfigState) (env : ExportEnv),
      (exportConfig s env).2.isExporting = false ∨ (exportConfig s env).2 = s) := by
  refine ⟨?_, ?_, ?_, ?_, ?_, ?_⟩
  · rintro s ⟨sel, rr, pwc, dr, pr, sr⟩
    rcases sel with _ | path <;> rcases rr with fc | e <;> rcases pwc with _ | pw <;>
      rcases dr with d | e2 <;> rcases pr with c | e3 <;> rcases sr with r | e4 <;>
        simp [importConfig, importOnSubmit, flagWritesImporting] <;>
          split_ifs <;> simp
  · rintro s ⟨sel, rr, pwc, dr, pr, sr⟩ path fileContent pw h1 h2 h3 h4 h5
    simp only at h1 h2 h4
    subst h1 h2 h4
    rcases dr with d | e2 <;> rcases pr with c | e3 <;> rcases sr with r | e4 <;>
      simp [importConfig, importOnSubmit, flagWritesImporting, h3, h5, List.takeWhile,
        Event.isSetImporting, Event.isPwDialog, Event.isReadFile] <;>
        split_ifs <;> simp
  · rintro s ⟨sel, rr, pwc, dr, pr, sr⟩
    rcases sel with _ | path <;> rcases rr with fc | e <;> rcases pwc with _ | pw <;>
      rcases dr with d | e2 <;> rcases pr with c | e3 <;> rcases sr with r | e4 <;>
        simp [importConfig, importOnSubmit] <;> split_ifs <;> simp
  · rintro s ⟨cr, pwc, er, sp, wr⟩
    rcases cr with bs | e <;> rcases pwc with _ | pw <;> rcases er with d | e2 <;>
      rcases sp with _ | p <;> rcases wr with u | e3 <;>
        simp [exportConfig, exportOnSubmit, flagWritesExporting] <;>
          split_ifs <;> simp
  · rintro s ⟨cr, pwc, er, sp, wr⟩ bs pw h1 h2 h3 h4
    simp only at h1 h3
    subst h1 h3
    rcases er with d | e2 <;> rcases sp with _ | p <;> rcases wr with u | e3 <;>
      simp [exportConfig, exportOnSubmit, flagWritesExporting, h2, h4, List.takeWhile,
        Event.isSetExporting, Event.isPwDialog, Event.isCollect] <;>
        split_ifs <;> simp
  · rintro s ⟨cr, pwc, er, sp, wr⟩
    rcases cr with bs | e <;> rcases pwc with _ | pw <;> rcases er with d | e2 <;>
      rcases sp with _ | p <;> rcases wr with u | e3 <;>
        simp [exportConfig, exportOnSubmit] <;> split_ifs <;> simp

/-- An import run reaching a fully-successful restore. -/
def envC10 : ImportEnv :=
  ⟨some "cfg.enc", .ok "ZW5j", .submit "abcd", .ok "decrypted",
   .ok ⟨.str "1.1.0", .num 1, .arr [b0]⟩, .ok ⟨1, []⟩⟩

/-- C10, witness: in the concrete successful import the flag is written
`true` then `false`, the dialog and the file read precede the first flag
write, and the flag ends cleared. -/
theorem c10_witness :
    flagWritesImporting (importConfig s0 envC10).1 = [true, false] ∧
    ((importConfig s0 envC10).1.takeWhile (fun e => !(e.isSetImporting))).any
      Event.isPwDialog = true ∧
    ((importConfig s0 envC10).1.takeWhile (fun e => !(e.isSetImporting))).any
      Event.isReadFile = true ∧
    (importConfig s0 envC10).2.isImporting = false :=
  c10_flag_set_only_in_submit.2.1 s0 envC10 "cfg.enc" "ZW5j" "abcd"
    rfl rfl (by decide) rfl (by decide)

end AntigravityAgent
